import Mathlib

/-!
Verification of the squashfs inode decoding subsystem
(`src/kernel/fs/squashfs/inode.c`).

The development is a shallow embedding of `squashfs_new_inode` and
`squashfs_read_inode`.  The external collaborators (the metadata stream
reader `squashfs_read_metadata`, the identity resolver `squashfs_get_id`
and the fragment resolver `get_fragment_location`) are modelled as oracle
fields of an `Fs` record; every call the decoder makes to a collaborator
is recorded in an explicit event trace so that claims about which reads
and lookups happen can be stated and proved.

Machine integers are modelled as `Nat`/`Int` with explicit truncation:
`u16`/`u32`/`u64` model the `le*_to_cpu` accessors reading fixed-width
little-endian fields, and `s64`/`blkcnt_of_int` model assignments into
the signed `loff_t` and unsigned 64-bit `blkcnt_t` inode fields.
-/

/-- Value of a 16-bit field (models `le16_to_cpu` of a `__le16` field). -/
def u16 (n : Nat) : Nat := n % 2 ^ 16

/-- Value of a 32-bit field (models `le32_to_cpu` of a `__le32` field). -/
def u32 (n : Nat) : Nat := n % 2 ^ 32

/-- Value of a 64-bit field (models `le64_to_cpu` of a `__le64` field). -/
def u64 (n : Nat) : Nat := n % 2 ^ 64

/-- Conversion of a C `int` value to `unsigned int` (two's complement,
modulo `2^32`); models the assignment `frag_size = get_fragment_location(...)`
where `frag_size` is declared `unsigned int`. -/
def u32_of_int (z : Int) : Nat := (z % (2 ^ 32 : Int)).toNat

/-- Reinterpretation of an unsigned 64-bit value as a signed 64-bit value
(two's complement); models storing a `__le64`-decoded value into the signed
`loff_t` field `i_size`. -/
def s64 (n : Nat) : Int := if n < 2 ^ 63 then (n : Int) else (n : Int) - 2 ^ 64

/-- Assignment of a signed intermediate into the unsigned 64-bit `blkcnt_t`
field `i_blocks` (reduction modulo `2^64`). -/
def blkcnt_of_int (z : Int) : Nat := (z % (2 ^ 64 : Int)).toNat

/-- Arithmetic right shift on a signed value, as gcc implements `>>` on a
negative signed integer: floor division by the power of two. -/
def sar (z : Int) (k : Nat) : Int := Int.fdiv z (2 ^ k)

/-- Modelled from the spec: the file-type discriminant values defined by
`squashfs_fs.h`, which is part of this repository but not under `src/`.
Spec section 6 fixes them: 1=directory(basic). -/
def SQUASHFS_DIR_TYPE : Nat := 1

/-- Modelled from the spec: discriminant 2 = regular file (basic). -/
def SQUASHFS_FILE_TYPE : Nat := 2

/-- Modelled from the spec: discriminant 3 = symlink (basic). -/
def SQUASHFS_SYMLINK_TYPE : Nat := 3

/-- Modelled from the spec: discriminant 4 = block device (basic). -/
def SQUASHFS_BLKDEV_TYPE : Nat := 4

/-- Modelled from the spec: discriminant 5 = char device (basic). -/
def SQUASHFS_CHRDEV_TYPE : Nat := 5

/-- Modelled from the spec: discriminant 6 = fifo (basic). -/
def SQUASHFS_FIFO_TYPE : Nat := 6

/-- Modelled from the spec: discriminant 7 = socket (basic). -/
def SQUASHFS_SOCKET_TYPE : Nat := 7

/-- Modelled from the spec: discriminant 8 = directory (extended). -/
def SQUASHFS_LDIR_TYPE : Nat := 8

/-- Modelled from the spec: discriminant 9 = regular file (extended). -/
def SQUASHFS_LREG_TYPE : Nat := 9

/-- Modelled from the spec: discriminant 10 = symlink (extended). -/
def SQUASHFS_LSYMLINK_TYPE : Nat := 10

/-- Modelled from the spec: discriminant 11 = block device (extended). -/
def SQUASHFS_LBLKDEV_TYPE : Nat := 11

/-- Modelled from the spec: discriminant 12 = char device (extended). -/
def SQUASHFS_LCHRDEV_TYPE : Nat := 12

/-- Modelled from the spec: discriminant 13 = fifo (extended). -/
def SQUASHFS_LFIFO_TYPE : Nat := 13

/-- Modelled from the spec: discriminant 14 = socket (extended). -/
def SQUASHFS_LSOCKET_TYPE : Nat := 14

/-- Modelled from the spec: the reserved "no fragment" sentinel of
`squashfs_fs.h` (not under `src/`); spec section 6 fixes it as the
all-ones 32-bit pattern. -/
def SQUASHFS_INVALID_FRAG : Nat := 0xffffffff

/-- Modelled from the spec: the value `squashfs_fs.h` (not under `src/`)
gives `SQUASHFS_INVALID_BLK`, stored into `fragment_block` when a file has
no fragment.  Spec section 3 describes the absent fragment reference as
having all three fields null/zero, so the constant is taken as 0. -/
def SQUASHFS_INVALID_BLK : Int := 0

/-- Modelled from the spec: the locator accessor `SQUASHFS_INODE_BLK` of
`squashfs_fs.h` (not under `src/`); spec section 6 says the 48-bit locator
splits as a block-table offset (high bits, taken as an `unsigned int`)
above an intra-block byte offset (low 16 bits). -/
def SQUASHFS_INODE_BLK (a : Nat) : Nat := u32 (a >>> 16)

/-- Modelled from the spec: the locator accessor `SQUASHFS_INODE_OFFSET` of
`squashfs_fs.h` (not under `src/`): the low 16 bits of the locator. -/
def SQUASHFS_INODE_OFFSET (a : Nat) : Nat := a &&& 0xffff

/-- Modelled from the spec: the locator composition accessor
`SQUASHFS_MKINODE` of `squashfs_fs.h` (not under `src/`): block in the
high bits above the 16-bit offset field. -/
def SQUASHFS_MKINODE (a b : Nat) : Nat := (a <<< 16) + b

/-- Linux `<linux/stat.h>` file-type bits (kernel-wide, outside this
repository): regular file. -/
def S_IFREG : Nat := 0o100000

/-- Linux file-type bits: directory. -/
def S_IFDIR : Nat := 0o040000

/-- Linux file-type bits: symbolic link. -/
def S_IFLNK : Nat := 0o120000

/-- Linux file-type bits: block device. -/
def S_IFBLK : Nat := 0o060000

/-- Linux file-type bits: character device. -/
def S_IFCHR : Nat := 0o020000

/-- Linux file-type bits: fifo. -/
def S_IFIFO : Nat := 0o010000

/-- Linux file-type bits: socket. -/
def S_IFSOCK : Nat := 0o140000

/-- The `EINVAL` errno value; `squashfs_read_inode` returns `-EINVAL`
for an unknown inode type. -/
def EINVAL : Int := 22

/-- Linux kernel helper (outside this repository): unpack the on-disk
packed device number into the kernel's `dev_t` encoding,
`MKDEV((dev & 0xfff00) >> 8, (dev & 0xff) | ((dev >> 12) & 0xfff00))`. -/
def new_decode_dev (dev : Nat) : Nat :=
  ((dev &&& 0xfff00) >>> 8) <<< 20 ||| ((dev &&& 0xff) ||| ((dev >>> 12) &&& 0xfff00))

/-- Modelled from the spec: `sizeof(struct squashfs_base_inode)` — the
struct layouts live in `squashfs_fs.h`, not under `src/`; sizes follow the
field lists of spec section 3 and only label trace events. -/
def sizeof_base_inode : Nat := 16

/-- Modelled from the spec: `sizeof(struct squashfs_reg_inode)`. -/
def sizeof_reg_inode : Nat := 32

/-- Modelled from the spec: `sizeof(struct squashfs_lreg_inode)`. -/
def sizeof_lreg_inode : Nat := 52

/-- Modelled from the spec: `sizeof(struct squashfs_dir_inode)`. -/
def sizeof_dir_inode : Nat := 32

/-- Modelled from the spec: `sizeof(struct squashfs_ldir_inode)`. -/
def sizeof_ldir_inode : Nat := 40

/-- Modelled from the spec: `sizeof(struct squashfs_symlink_inode)`. -/
def sizeof_symlink_inode : Nat := 24

/-- Modelled from the spec: `sizeof(struct squashfs_dev_inode)`. -/
def sizeof_dev_inode : Nat := 24

/-- Modelled from the spec: `sizeof(struct squashfs_ipc_inode)`. -/
def sizeof_ipc_inode : Nat := 20

/-- Raw fields of `struct squashfs_base_inode` (the common header).
Fields hold the raw little-endian-decoded integers; width truncation is
applied at each access via `u16`/`u32`, like `le*_to_cpu` in the source. -/
structure squashfs_base_inode where
  inode_type : Nat := 0
  mode : Nat := 0
  uid : Nat := 0
  guid : Nat := 0
  mtime : Nat := 0
  inode_number : Nat := 0
deriving Repr, DecidableEq

/-- Type-specific fields of `struct squashfs_reg_inode` that the decoder
accesses (the shared header prefix is read separately as the base inode). -/
structure squashfs_reg_inode where
  start_block : Nat := 0
  fragment : Nat := 0
  offset : Nat := 0
  file_size : Nat := 0
deriving Repr, DecidableEq

/-- Type-specific fields of `struct squashfs_lreg_inode` accessed by the
decoder. -/
structure squashfs_lreg_inode where
  start_block : Nat := 0
  file_size : Nat := 0
  sparse : Nat := 0
  nlink : Nat := 0
  fragment : Nat := 0
  offset : Nat := 0
deriving Repr, DecidableEq

/-- Type-specific fields of `struct squashfs_dir_inode` accessed by the
decoder. -/
structure squashfs_dir_inode where
  start_block : Nat := 0
  nlink : Nat := 0
  file_size : Nat := 0
  offset : Nat := 0
  parent_inode : Nat := 0
deriving Repr, DecidableEq

/-- Type-specific fields of `struct squashfs_ldir_inode` accessed by the
decoder. -/
structure squashfs_ldir_inode where
  nlink : Nat := 0
  file_size : Nat := 0
  start_block : Nat := 0
  parent_inode : Nat := 0
  i_count : Nat := 0
  offset : Nat := 0
deriving Repr, DecidableEq

/-- Type-specific fields of `struct squashfs_symlink_inode` accessed by
the decoder. -/
structure squashfs_symlink_inode where
  nlink : Nat := 0
  symlink_size : Nat := 0
deriving Repr, DecidableEq

/-- Type-specific fields of `struct squashfs_dev_inode` accessed by the
decoder. -/
structure squashfs_dev_inode where
  nlink : Nat := 0
  rdev : Nat := 0
deriving Repr, DecidableEq

/-- Type-specific fields of `struct squashfs_ipc_inode` accessed by the
decoder. -/
structure squashfs_ipc_inode where
  nlink : Nat := 0
deriving Repr, DecidableEq

/-- The decoded inode: the VFS `struct inode` fields `squashfs_read_inode`
assigns, plus the `squashfs_inode_info` side fields (`SQUASHFS_I(i)`).
Defaults are the state of a freshly allocated VFS inode before
`squashfs_new_inode` runs (`inode_init_always` sets `i_nlink = 1`,
`i_blocks = 0`). -/
structure SqInode where
  i_uid : Nat := 0
  i_gid : Nat := 0
  i_ino : Nat := 0
  i_mtime : Nat := 0
  i_atime : Nat := 0
  i_ctime : Nat := 0
  i_mode : Nat := 0
  i_size : Int := 0
  i_nlink : Nat := 1
  i_blocks : Nat := 0
  i_rdev : Nat := 0
  fragment_block : Int := 0
  fragment_size : Nat := 0
  fragment_offset : Nat := 0
  start_block : Int := 0
  block_list_start : Nat := 0
  offset : Nat := 0
  dir_index_start : Nat := 0
  dir_index_offset : Nat := 0
  dir_index_count : Nat := 0
  parent_inode : Nat := 0
deriving Repr, DecidableEq

/-- One observable call the decoder makes to a collaborator: a metadata
stream read (`squashfs_read_metadata`, with its start block, start offset
and length), an identity lookup (`squashfs_get_id`) or a fragment lookup
(`get_fragment_location`). -/
inductive Event where
  | readMeta (block offset len : Nat)
  | getId (idx : Nat)
  | getFrag (idx : Nat)
deriving Repr, DecidableEq

/-- The stream reads contained in an event trace, in order, as
(block, offset, length) triples. -/
def streamReads : List Event → List (Nat × Nat × Nat)
  | [] => []
  | .readMeta b o l :: es => (b, o, l) :: streamReads es
  | .getId _ :: es => streamReads es
  | .getFrag _ :: es => streamReads es

/-- The filesystem context a decode runs against: the inode table base
from the superblock info, plus the external collaborators as oracles.
Each `read_*` oracle models `squashfs_read_metadata` called with the
corresponding struct size: it returns the decoded record together with the
advanced (block, offset) cursor, or a negative errno.  `get_id` models
`squashfs_get_id` (nonzero return = failure).  `get_fragment_location`
returns the C function's `int` result (the fragment size, negative on
failure) and the fragment start block it writes through its out
parameter. -/
structure Fs where
  inode_table_start : Nat
  get_id : Nat → Except Int Nat
  get_fragment_location : Nat → Int × Int
  read_base : Nat → Nat → Except Int squashfs_base_inode
  read_reg : Nat → Nat → Except Int (squashfs_reg_inode × Nat × Nat)
  read_lreg : Nat → Nat → Except Int (squashfs_lreg_inode × Nat × Nat)
  read_dir : Nat → Nat → Except Int (squashfs_dir_inode × Nat × Nat)
  read_ldir : Nat → Nat → Except Int (squashfs_ldir_inode × Nat × Nat)
  read_symlink : Nat → Nat → Except Int (squashfs_symlink_inode × Nat × Nat)
  read_dev : Nat → Nat → Except Int (squashfs_dev_inode × Nat × Nat)
  read_ipc : Nat → Nat → Except Int (squashfs_ipc_inode × Nat × Nat)

/-- Embedding of `squashfs_new_inode`: resolve uid and gid through the
identity resolver, then initialise the base inode information common to
all squashfs inode types (`i_size = 0`, one stored timestamp copied into
mtime/atime/ctime, the stored mode without type bits).  Returns the
identity-lookup trace together with the result; an identity failure
propagates the resolver's error and builds no inode. -/
def squashfs_new_inode (fs : Fs) (inodeb : squashfs_base_inode) :
    List Event × Except Int SqInode :=
  match fs.get_id (u16 inodeb.uid) with
  | .error e => ([.getId (u16 inodeb.uid)], .error e)
  | .ok uid =>
    match fs.get_id (u16 inodeb.guid) with
    | .error e => ([.getId (u16 inodeb.uid), .getId (u16 inodeb.guid)], .error e)
    | .ok gid =>
      ([.getId (u16 inodeb.uid), .getId (u16 inodeb.guid)],
       .ok { i_uid := uid,
             i_gid := gid,
             i_ino := u32 inodeb.inode_number,
             i_mtime := u32 inodeb.mtime,
             i_atime := u32 inodeb.mtime,
             i_ctime := u32 inodeb.mtime,
             i_mode := u16 inodeb.mode,
             i_size := 0 })

/-- Embedding of the `switch (type)` body of `squashfs_read_inode`: given
the decoded discriminant, the inode initialised by `squashfs_new_inode`
and the (block, offset) position the header was read from (the source
recomputes exactly this position before the switch), read the full
type-specific record from that same position and fill in the
type-specific and derived fields.  Returns the trace of collaborator
calls the branch makes together with the result; the default branch
performs no further reads and fails with `-EINVAL`. -/
def squashfs_decode_type (fs : Fs) (type : Nat) (i0 : SqInode)
    (block offset : Nat) : List Event × Except Int SqInode :=
  if type = SQUASHFS_FILE_TYPE then
    match fs.read_reg block offset with
    | .error e => ([.readMeta block offset sizeof_reg_inode], .error e)
    | .ok (inodep, block1, offset1) =>
      let frag := u32 inodep.fragment
      let fill := fun (frag_blk : Int) (frag_size : Nat) (frag_offset : Nat) =>
        { i0 with
          i_nlink := 1,
          i_size := (u32 inodep.file_size : Int),
          i_mode := i0.i_mode ||| S_IFREG,
          -- i_blocks = ((i_size - 1) >> 9) + 1 in signed (loff_t) arithmetic
          i_blocks := blkcnt_of_int (sar ((u32 inodep.file_size : Int) - 1) 9 + 1),
          fragment_block := frag_blk,
          fragment_size := frag_size,
          fragment_offset := frag_offset,
          start_block := (u32 inodep.start_block : Int),
          block_list_start := block1,
          offset := offset1 }
      if frag ≠ SQUASHFS_INVALID_FRAG then
        let frag_offset := u32 inodep.offset
        let fr := fs.get_fragment_location frag
        let frag_size := u32_of_int fr.1
        -- dead in the source: frag_size is `unsigned int`, so `frag_size < 0`
        -- can never hold and a fragment-lookup failure is not detected
        if frag_size < 0 then
          ([.readMeta block offset sizeof_reg_inode, .getFrag frag],
           .error (frag_size : Int))
        else
          ([.readMeta block offset sizeof_reg_inode, .getFrag frag],
           .ok (fill fr.2 frag_size frag_offset))
      else
        ([.readMeta block offset sizeof_reg_inode],
         .ok (fill SQUASHFS_INVALID_BLK 0 0))
  else if type = SQUASHFS_LREG_TYPE then
    match fs.read_lreg block offset with
    | .error e => ([.readMeta block offset sizeof_lreg_inode], .error e)
    | .ok (inodep, block1, offset1) =>
      let frag := u32 inodep.fragment
      let fill := fun (frag_blk : Int) (frag_size : Nat) (frag_offset : Nat) =>
        { i0 with
          i_nlink := u32 inodep.nlink,
          i_size := s64 (u64 inodep.file_size),
          i_mode := i0.i_mode ||| S_IFREG,
          -- i_blocks = ((i_size - sparse - 1) >> 9) + 1: i_size is converted
          -- to u64 by the u64 operand `le64_to_cpu(inodep->sparse)`, so the
          -- whole expression is unsigned 64-bit with a logical shift
          i_blocks :=
            ((u64 inodep.file_size + (2 ^ 64 - u64 inodep.sparse) + (2 ^ 64 - 1))
              % 2 ^ 64) >>> 9 + 1,
          fragment_block := frag_blk,
          fragment_size := frag_size,
          fragment_offset := frag_offset,
          start_block := s64 (u64 inodep.start_block),
          block_list_start := block1,
          offset := offset1 }
      if frag ≠ SQUASHFS_INVALID_FRAG then
        let frag_offset := u32 inodep.offset
        let fr := fs.get_fragment_location frag
        let frag_size := u32_of_int fr.1
        -- dead in the source, as in the basic-file branch
        if frag_size < 0 then
          ([.readMeta block offset sizeof_lreg_inode, .getFrag frag],
           .error (frag_size : Int))
        else
          ([.readMeta block offset sizeof_lreg_inode, .getFrag frag],
           .ok (fill fr.2 frag_size frag_offset))
      else
        ([.readMeta block offset sizeof_lreg_inode],
         .ok (fill SQUASHFS_INVALID_BLK 0 0))
  else if type = SQUASHFS_DIR_TYPE then
    match fs.read_dir block offset with
    | .error e => ([.readMeta block offset sizeof_dir_inode], .error e)
    | .ok (inodep, _, _) =>
      ([.readMeta block offset sizeof_dir_inode],
       .ok { i0 with
             i_nlink := u32 inodep.nlink,
             i_size := (u16 inodep.file_size : Int),
             i_mode := i0.i_mode ||| S_IFDIR,
             start_block := (u32 inodep.start_block : Int),
             offset := u16 inodep.offset,
             dir_index_count := 0,
             parent_inode := u32 inodep.parent_inode })
  else if type = SQUASHFS_LDIR_TYPE then
    match fs.read_ldir block offset with
    | .error e => ([.readMeta block offset sizeof_ldir_inode], .error e)
    | .ok (inodep, block1, offset1) =>
      ([.readMeta block offset sizeof_ldir_inode],
       .ok { i0 with
             i_nlink := u32 inodep.nlink,
             i_size := (u32 inodep.file_size : Int),
             i_mode := i0.i_mode ||| S_IFDIR,
             start_block := (u32 inodep.start_block : Int),
             offset := u16 inodep.offset,
             dir_index_start := block1,
             dir_index_offset := offset1,
             dir_index_count := u16 inodep.i_count,
             parent_inode := u32 inodep.parent_inode })
  else if type = SQUASHFS_SYMLINK_TYPE then
    match fs.read_symlink block offset with
    | .error e => ([.readMeta block offset sizeof_symlink_inode], .error e)
    | .ok (inodep, block1, offset1) =>
      ([.readMeta block offset sizeof_symlink_inode],
       .ok { i0 with
             i_nlink := u32 inodep.nlink,
             i_size := (u32 inodep.symlink_size : Int),
             i_mode := i0.i_mode ||| S_IFLNK,
             start_block := (block1 : Int),
             offset := offset1 })
  else if type = SQUASHFS_BLKDEV_TYPE ∨ type = SQUASHFS_CHRDEV_TYPE then
    match fs.read_dev block offset with
    | .error e => ([.readMeta block offset sizeof_dev_inode], .error e)
    | .ok (inodep, _, _) =>
      let m := i0.i_mode |||
        (if type = SQUASHFS_CHRDEV_TYPE then S_IFCHR else S_IFBLK)
      -- init_special_inode(i, le16_to_cpu(i->i_mode), new_decode_dev(rdev))
      ([.readMeta block offset sizeof_dev_inode],
       .ok { i0 with
             i_nlink := u32 inodep.nlink,
             i_mode := u16 m,
             i_rdev := new_decode_dev (u32 inodep.rdev) })
  else if type = SQUASHFS_FIFO_TYPE ∨ type = SQUASHFS_SOCKET_TYPE then
    match fs.read_ipc block offset with
    | .error e => ([.readMeta block offset sizeof_ipc_inode], .error e)
    | .ok (inodep, _, _) =>
      let m := i0.i_mode |||
        (if type = SQUASHFS_FIFO_TYPE then S_IFIFO else S_IFSOCK)
      ([.readMeta block offset sizeof_ipc_inode],
       .ok { i0 with
             i_nlink := u32 inodep.nlink,
             i_mode := u16 m })
  else
    ([], .error (-EINVAL))

/-- The metadata-block position at which a decode of `inode` starts its
reads (source line `block = SQUASHFS_INODE_BLK(inode) +
msblk->inode_table_start`): locator block plus the inode table base. -/
def inode_start_block (fs : Fs) (inode : Nat) : Nat :=
  SQUASHFS_INODE_BLK inode + fs.inode_table_start

/-- The intra-block byte offset at which a decode of `inode` starts
(source line `offset = SQUASHFS_INODE_OFFSET(inode)`). -/
def inode_start_offset (inode : Nat) : Nat :=
  SQUASHFS_INODE_OFFSET inode

/-- Embedding of `squashfs_read_inode`: split the 48-bit inode locator,
read the common header at (inode table base + block, offset), initialise
the common fields via `squashfs_new_inode`, reset the cursor to the same
starting position (the source recomputes `block` and `offset` from the
locator before the switch) and dispatch on the discriminant.  The first
component is the full trace of collaborator calls, the second the decoded
inode or the first error hit. -/
def squashfs_read_inode (fs : Fs) (inode : Nat) :
    List Event × Except Int SqInode :=
  match fs.read_base (inode_start_block fs inode) (inode_start_offset inode) with
  | .error e =>
    ([.readMeta (inode_start_block fs inode) (inode_start_offset inode)
        sizeof_base_inode], .error e)
  | .ok inodeb =>
    match squashfs_new_inode fs inodeb with
    | (evs, .error e) =>
      (Event.readMeta (inode_start_block fs inode) (inode_start_offset inode)
         sizeof_base_inode :: evs, .error e)
    | (evs, .ok i0) =>
      let td := squashfs_decode_type fs (u16 inodeb.inode_type) i0
        (inode_start_block fs inode) (inode_start_offset inode)
      (Event.readMeta (inode_start_block fs inode) (inode_start_offset inode)
         sizeof_base_inode :: (evs ++ td.1), td.2)

/-- The discriminant values `squashfs_read_inode`'s switch handles, in
source order: basic file, extended file, basic directory, extended
directory, symlink, block device, char device, fifo, socket. -/
def handled_types : List Nat :=
  [SQUASHFS_FILE_TYPE, SQUASHFS_LREG_TYPE, SQUASHFS_DIR_TYPE,
   SQUASHFS_LDIR_TYPE, SQUASHFS_SYMLINK_TYPE, SQUASHFS_BLKDEV_TYPE,
   SQUASHFS_CHRDEV_TYPE, SQUASHFS_FIFO_TYPE, SQUASHFS_SOCKET_TYPE]

/-- The fourteen discriminant values the spec defines. -/
def defined_types : List Nat :=
  [SQUASHFS_DIR_TYPE, SQUASHFS_FILE_TYPE, SQUASHFS_SYMLINK_TYPE,
   SQUASHFS_BLKDEV_TYPE, SQUASHFS_CHRDEV_TYPE, SQUASHFS_FIFO_TYPE,
   SQUASHFS_SOCKET_TYPE, SQUASHFS_LDIR_TYPE, SQUASHFS_LREG_TYPE,
   SQUASHFS_LSYMLINK_TYPE, SQUASHFS_LBLKDEV_TYPE, SQUASHFS_LCHRDEV_TYPE,
   SQUASHFS_LFIFO_TYPE, SQUASHFS_LSOCKET_TYPE]

/-- Success of every metadata-stream reader oracle: each read of a
type-specific record returns a record rather than an error. -/
def ReadersOk (fs : Fs) : Prop :=
  (∀ b o, ∃ r, fs.read_reg b o = .ok r) ∧
  (∀ b o, ∃ r, fs.read_lreg b o = .ok r) ∧
  (∀ b o, ∃ r, fs.read_dir b o = .ok r) ∧
  (∀ b o, ∃ r, fs.read_ldir b o = .ok r) ∧
  (∀ b o, ∃ r, fs.read_symlink b o = .ok r) ∧
  (∀ b o, ∃ r, fs.read_dev b o = .ok r) ∧
  (∀ b o, ∃ r, fs.read_ipc b o = .ok r)

theorem streamReads_append (a b : List Event) :
    streamReads (a ++ b) = streamReads a ++ streamReads b := by
  induction a with
  | nil => rfl
  | cons e es ih => cases e <;> simp [streamReads, ih]

/-- `squashfs_new_inode` performs identity lookups only: its trace holds
no stream read and no fragment lookup. -/
theorem new_inode_trace (fs : Fs) (b : squashfs_base_inode) :
    streamReads (squashfs_new_inode fs b).1 = [] ∧
    ∀ i, Event.getFrag i ∉ (squashfs_new_inode fs b).1 := by
  unfold squashfs_new_inode
  rcases fs.get_id (u16 b.uid) with e | uid
  · simp [streamReads]
  · rcases fs.get_id (u16 b.guid) with e | gid <;> simp [streamReads]

/-- Every branch of the type dispatch issues either no stream read (the
default branch) or exactly one, and that one starts at the same
(block, offset) the dispatch was given. -/
theorem decode_type_reads (fs : Fs) (t : Nat) (i0 : SqInode) (b o : Nat) :
    streamReads (squashfs_decode_type fs t i0 b o).1 = [] ∨
    ∃ l, streamReads (squashfs_decode_type fs t i0 b o).1 = [(b, o, l)] := by
  unfold squashfs_decode_type
  repeat' split
  all_goals try simp [streamReads]
  all_goals try split
  all_goals simp [streamReads]

/-- A discriminant outside the nine handled values takes the default
branch: no collaborator call, result `-EINVAL`. -/
theorem decode_type_unhandled (fs : Fs) (t : Nat) (i0 : SqInode) (b o : Nat)
    (ht : t ∉ handled_types) :
    squashfs_decode_type fs t i0 b o = ([], .error (-EINVAL)) := by
  simp only [handled_types, SQUASHFS_FILE_TYPE, SQUASHFS_LREG_TYPE,
    SQUASHFS_DIR_TYPE, SQUASHFS_LDIR_TYPE, SQUASHFS_SYMLINK_TYPE,
    SQUASHFS_BLKDEV_TYPE, SQUASHFS_CHRDEV_TYPE, SQUASHFS_FIFO_TYPE,
    SQUASHFS_SOCKET_TYPE, List.mem_cons, List.not_mem_nil, or_false,
    not_or] at ht
  obtain ⟨h2, h9, h1, h8, h3, h4, h5, h6, h7⟩ := ht
  simp [squashfs_decode_type, SQUASHFS_FILE_TYPE, SQUASHFS_LREG_TYPE,
    SQUASHFS_DIR_TYPE, SQUASHFS_LDIR_TYPE, SQUASHFS_SYMLINK_TYPE,
    SQUASHFS_BLKDEV_TYPE, SQUASHFS_CHRDEV_TYPE, SQUASHFS_FIFO_TYPE,
    SQUASHFS_SOCKET_TYPE, h1, h2, h3, h4, h5, h6, h7, h8, h9]

/-- C2: for every (block, offset) pair within the field widths of the
48-bit locator (block below `2^32`, offset below `2^16`), decomposing the
locator composed from the pair returns exactly the pair. -/
theorem C2_locator_roundtrip (block offset : Nat)
    (hb : block < 2 ^ 32) (ho : offset < 2 ^ 16) :
    SQUASHFS_INODE_BLK (SQUASHFS_MKINODE block offset) = block ∧
    SQUASHFS_INODE_OFFSET (SQUASHFS_MKINODE block offset) = offset := by
  constructor
  · show u32 ((block <<< 16 + offset) >>> 16) = block
    rw [Nat.shiftLeft_eq, Nat.shiftRight_eq_div_pow]
    have hdiv : (block * 2 ^ 16 + offset) / 2 ^ 16 = block := by
      rw [Nat.add_comm, Nat.add_mul_div_right _ _ (by norm_num : 0 < 2 ^ 16),
        Nat.div_eq_of_lt ho, Nat.zero_add]
    rw [hdiv]
    exact Nat.mod_eq_of_lt hb
  · show (block <<< 16 + offset) &&& 0xffff = offset
    have h16 : (0xffff : Nat) = 2 ^ 16 - 1 := by norm_num
    rw [h16, Nat.and_pow_two_sub_one_eq_mod, Nat.shiftLeft_eq,
      Nat.mul_comm block (2 ^ 16), Nat.mul_add_mod, Nat.mod_eq_of_lt ho]

/-- C2 witness: the round trip at the concrete pair (0x12345, 0x678). -/
theorem C2_locator_roundtrip_witness :
    SQUASHFS_INODE_BLK (SQUASHFS_MKINODE 0x12345 0x678) = 0x12345 ∧
    SQUASHFS_INODE_OFFSET (SQUASHFS_MKINODE 0x12345 0x678) = 0x678 :=
  C2_locator_roundtrip 0x12345 0x678 (by norm_num) (by norm_num)

/-- When the header read and both identity lookups succeed, the decode
result is exactly the dispatch result on the inode initialised by
`squashfs_new_inode`, issued at the original start position. -/
theorem read_inode_result (fs : Fs) (ino : Nat) (b : squashfs_base_inode)
    (uid gid : Nat)
    (hb : fs.read_base (inode_start_block fs ino) (inode_start_offset ino) = .ok b)
    (hu : fs.get_id (u16 b.uid) = .ok uid)
    (hg : fs.get_id (u16 b.guid) = .ok gid) :
    (squashfs_read_inode fs ino).2 =
      (squashfs_decode_type fs (u16 b.inode_type)
        { i_uid := uid, i_gid := gid, i_ino := u32 b.inode_number,
          i_mtime := u32 b.mtime, i_atime := u32 b.mtime,
          i_ctime := u32 b.mtime, i_mode := u16 b.mode, i_size := 0 }
        (inode_start_block fs ino) (inode_start_offset ino)).2 := by
  unfold squashfs_read_inode squashfs_new_inode
  rw [hb]
  simp only [hu, hg]

/-- The full trace in the same situation: the header read, the two
identity lookups, then whatever the dispatched branch does. -/
theorem read_inode_trace (fs : Fs) (ino : Nat) (b : squashfs_base_inode)
    (uid gid : Nat)
    (hb : fs.read_base (inode_start_block fs ino) (inode_start_offset ino) = .ok b)
    (hu : fs.get_id (u16 b.uid) = .ok uid)
    (hg : fs.get_id (u16 b.guid) = .ok gid) :
    (squashfs_read_inode fs ino).1 =
      Event.readMeta (inode_start_block fs ino) (inode_start_offset ino)
          sizeof_base_inode ::
        ([Event.getId (u16 b.uid), Event.getId (u16 b.guid)] ++
          (squashfs_decode_type fs (u16 b.inode_type)
            { i_uid := uid, i_gid := gid, i_ino := u32 b.inode_number,
              i_mtime := u32 b.mtime, i_atime := u32 b.mtime,
              i_ctime := u32 b.mtime, i_mode := u16 b.mode, i_size := 0 }
            (inode_start_block fs ino) (inode_start_offset ino)).1) := by
  unfold squashfs_read_inode squashfs_new_inode
  rw [hb]
  simp only [hu, hg]

/-- C9: every stream read a decode issues — the common-header read and,
when dispatch reaches a handled type, the single type-specific record
read — starts at exactly the same (block, offset) position computed from
the locator, so header and type payload are covered by one contiguous
record read rather than by a second independent read elsewhere. -/
theorem C9_same_start_position (fs : Fs) (ino : Nat) :
    streamReads (squashfs_read_inode fs ino).1 =
      [(inode_start_block fs ino, inode_start_offset ino, sizeof_base_inode)] ∨
    ∃ l, streamReads (squashfs_read_inode fs ino).1 =
      [(inode_start_block fs ino, inode_start_offset ino, sizeof_base_inode),
       (inode_start_block fs ino, inode_start_offset ino, l)] := by
  unfold squashfs_read_inode
  rcases hb : fs.read_base (inode_start_block fs ino) (inode_start_offset ino)
    with e | b
  · left; simp [streamReads]
  · rcases hn : squashfs_new_inode fs b with ⟨evs, res⟩
    have hevs : streamReads evs = [] := by
      have h := (new_inode_trace fs b).1
      rw [hn] at h
      exact h
    cases res with
    | error e => left; simp [hn, streamReads, streamReads_append, hevs]
    | ok i0 =>
      rcases decode_type_reads fs (u16 b.inode_type) i0
        (inode_start_block fs ino) (inode_start_offset ino) with h0 | ⟨l, hl⟩
      · left; simp [hn, streamReads, streamReads_append, hevs, h0]
      · right
        exact ⟨l, by simp [hn, streamReads, streamReads_append, hevs, hl]⟩

/-- C5: a common header whose discriminant lies outside the fourteen
defined values (for example 99) makes the decode fail with the
unknown-inode-type error `-EINVAL`, perform no stream read after the
header read, and return no inode. -/
theorem C5_unknown_type (fs : Fs) (ino : Nat) (b : squashfs_base_inode)
    (uid gid : Nat)
    (hb : fs.read_base (inode_start_block fs ino) (inode_start_offset ino) = .ok b)
    (hu : fs.get_id (u16 b.uid) = .ok uid)
    (hg : fs.get_id (u16 b.guid) = .ok gid)
    (ht : u16 b.inode_type ∉ defined_types) :
    (squashfs_read_inode fs ino).2 = .error (-EINVAL) ∧
    streamReads (squashfs_read_inode fs ino).1 =
      [(inode_start_block fs ino, inode_start_offset ino, sizeof_base_inode)] := by
  have hth : u16 b.inode_type ∉ handled_types := by
    intro hmem
    apply ht
    revert hmem
    simp only [handled_types, defined_types, SQUASHFS_DIR_TYPE,
      SQUASHFS_FILE_TYPE, SQUASHFS_SYMLINK_TYPE, SQUASHFS_BLKDEV_TYPE,
      SQUASHFS_CHRDEV_TYPE, SQUASHFS_FIFO_TYPE, SQUASHFS_SOCKET_TYPE,
      SQUASHFS_LDIR_TYPE, SQUASHFS_LREG_TYPE, SQUASHFS_LSYMLINK_TYPE,
      SQUASHFS_LBLKDEV_TYPE, SQUASHFS_LCHRDEV_TYPE, SQUASHFS_LFIFO_TYPE,
      SQUASHFS_LSOCKET_TYPE, List.mem_cons, List.not_mem_nil, or_false]
    tauto
  constructor
  · rw [read_inode_result fs ino b uid gid hb hu hg,
      decode_type_unhandled _ _ _ _ _ hth]
  · rw [read_inode_trace fs ino b uid gid hb hu hg,
      decode_type_unhandled _ _ _ _ _ hth]
    simp [streamReads]

/-- A concrete filesystem context for witnesses: every oracle succeeds,
the header read returns `b`, the typed record reads return the given
records and leave the cursor at (5, 6). -/
def mkFs (b : squashfs_base_inode) (reg : squashfs_reg_inode)
    (lreg : squashfs_lreg_inode) (dir : squashfs_dir_inode)
    (ldir : squashfs_ldir_inode) (sym : squashfs_symlink_inode)
    (dev : squashfs_dev_inode) (ipc : squashfs_ipc_inode) : Fs :=
  { inode_table_start := 0,
    get_id := fun idx => .ok (1000 + idx),
    get_fragment_location := fun idx => ((idx : Int) + 64, 4096),
    read_base := fun _ _ => .ok b,
    read_reg := fun _ _ => .ok (reg, 5, 6),
    read_lreg := fun _ _ => .ok (lreg, 5, 6),
    read_dir := fun _ _ => .ok (dir, 5, 6),
    read_ldir := fun _ _ => .ok (ldir, 5, 6),
    read_symlink := fun _ _ => .ok (sym, 5, 6),
    read_dev := fun _ _ => .ok (dev, 5, 6),
    read_ipc := fun _ _ => .ok (ipc, 5, 6) }

/-- The filesystem context of the C5 witness: header with discriminant 99. -/
def fsC5 : Fs :=
  mkFs { inode_type := 99, mode := 0o755, uid := 0, guid := 0, mtime := 5,
         inode_number := 7 } {} {} {} {} {} {} {}

/-- C5 witness: decoding the discriminant-99 header fails with `-EINVAL`
after the single header read. -/
theorem C5_unknown_type_witness :
    (squashfs_read_inode fsC5 0).2 = .error (-EINVAL) ∧
    streamReads (squashfs_read_inode fsC5 0).1 =
      [(inode_start_block fsC5 0, inode_start_offset 0, sizeof_base_inode)] :=
  C5_unknown_type fsC5 0
    { inode_type := 99, mode := 0o755, uid := 0, guid := 0, mtime := 5,
      inode_number := 7 } 1000 1000 rfl rfl rfl (by decide)

/-- C1 (amended): with the header read, both identity lookups and the
record readers succeeding, each of the nine discriminants the decoder
handles (the seven basic types 1-7 plus extended directory 8 and extended
regular file 9) dispatches to its type-specific decode and succeeds — in
particular it never fails with the unknown-inode-type error — while every
discriminant outside that set, including the defined extended variants
10-14, makes the decode fail hard with `-EINVAL`. -/
theorem C1_type_dispatch (fs : Fs) (ino : Nat) (b : squashfs_base_inode)
    (uid gid : Nat)
    (hb : fs.read_base (inode_start_block fs ino) (inode_start_offset ino) = .ok b)
    (hu : fs.get_id (u16 b.uid) = .ok uid)
    (hg : fs.get_id (u16 b.guid) = .ok gid)
    (hr : ReadersOk fs) :
    (u16 b.inode_type ∈ handled_types →
      ∃ v, (squashfs_read_inode fs ino).2 = .ok v) ∧
    (u16 b.inode_type ∉ handled_types →
      (squashfs_read_inode fs ino).2 = .error (-EINVAL)) := by
  obtain ⟨hreg, hlreg, hdir, hldir, hsym, hdev, hipc⟩ := hr
  rw [read_inode_result fs ino b uid gid hb hu hg]
  constructor
  · intro hmem
    simp only [handled_types, List.mem_cons, List.not_mem_nil, or_false]
      at hmem
    rcases hmem with h | h | h | h | h | h | h | h | h
    · rw [h]
      obtain ⟨⟨r, c1, c2⟩, hrd⟩ :=
        hreg (inode_start_block fs ino) (inode_start_offset ino)
      by_cases hf : u32 r.fragment = SQUASHFS_INVALID_FRAG <;>
        simp [squashfs_decode_type, SQUASHFS_FILE_TYPE, hrd, hf,
          Nat.not_lt_zero]
    · rw [h]
      obtain ⟨⟨r, c1, c2⟩, hrd⟩ :=
        hlreg (inode_start_block fs ino) (inode_start_offset ino)
      by_cases hf : u32 r.fragment = SQUASHFS_INVALID_FRAG <;>
        simp [squashfs_decode_type, SQUASHFS_FILE_TYPE, SQUASHFS_LREG_TYPE,
          hrd, hf, Nat.not_lt_zero]
    · rw [h]
      obtain ⟨⟨r, c1, c2⟩, hrd⟩ :=
        hdir (inode_start_block fs ino) (inode_start_offset ino)
      simp [squashfs_decode_type, SQUASHFS_FILE_TYPE, SQUASHFS_LREG_TYPE,
        SQUASHFS_DIR_TYPE, hrd]
    · rw [h]
      obtain ⟨⟨r, c1, c2⟩, hrd⟩ :=
        hldir (inode_start_block fs ino) (inode_start_offset ino)
      simp [squashfs_decode_type, SQUASHFS_FILE_TYPE, SQUASHFS_LREG_TYPE,
        SQUASHFS_DIR_TYPE, SQUASHFS_LDIR_TYPE, hrd]
    · rw [h]
      obtain ⟨⟨r, c1, c2⟩, hrd⟩ :=
        hsym (inode_start_block fs ino) (inode_start_offset ino)
      simp [squashfs_decode_type, SQUASHFS_FILE_TYPE, SQUASHFS_LREG_TYPE,
        SQUASHFS_DIR_TYPE, SQUASHFS_LDIR_TYPE, SQUASHFS_SYMLINK_TYPE, hrd]
    · rw [h]
      obtain ⟨⟨r, c1, c2⟩, hrd⟩ :=
        hdev (inode_start_block fs ino) (inode_start_offset ino)
      simp [squashfs_decode_type, SQUASHFS_FILE_TYPE, SQUASHFS_LREG_TYPE,
        SQUASHFS_DIR_TYPE, SQUASHFS_LDIR_TYPE, SQUASHFS_SYMLINK_TYPE,
        SQUASHFS_BLKDEV_TYPE, SQUASHFS_CHRDEV_TYPE, hrd]
    · rw [h]
      obtain ⟨⟨r, c1, c2⟩, hrd⟩ :=
        hdev (inode_start_block fs ino) (inode_start_offset ino)
      simp [squashfs_decode_type, SQUASHFS_FILE_TYPE, SQUASHFS_LREG_TYPE,
        SQUASHFS_DIR_TYPE, SQUASHFS_LDIR_TYPE, SQUASHFS_SYMLINK_TYPE,
        SQUASHFS_BLKDEV_TYPE, SQUASHFS_CHRDEV_TYPE, hrd]
    · rw [h]
      obtain ⟨⟨r, c1, c2⟩, hrd⟩ :=
        hipc (inode_start_block fs ino) (inode_start_offset ino)
      simp [squashfs_decode_type, SQUASHFS_FILE_TYPE, SQUASHFS_LREG_TYPE,
        SQUASHFS_DIR_TYPE, SQUASHFS_LDIR_TYPE, SQUASHFS_SYMLINK_TYPE,
        SQUASHFS_BLKDEV_TYPE, SQUASHFS_CHRDEV_TYPE, SQUASHFS_FIFO_TYPE,
        SQUASHFS_SOCKET_TYPE, hrd]
    · rw [h]
      obtain ⟨⟨r, c1, c2⟩, hrd⟩ :=
        hipc (inode_start_block fs ino) (inode_start_offset ino)
      simp [squashfs_decode_type, SQUASHFS_FILE_TYPE, SQUASHFS_LREG_TYPE,
        SQUASHFS_DIR_TYPE, SQUASHFS_LDIR_TYPE, SQUASHFS_SYMLINK_TYPE,
        SQUASHFS_BLKDEV_TYPE, SQUASHFS_CHRDEV_TYPE, SQUASHFS_FIFO_TYPE,
        SQUASHFS_SOCKET_TYPE, hrd]
  · intro h
    rw [decode_type_unhandled _ _ _ _ _ h]

/-- The filesystem context of the C1 counterexample: a header carrying
discriminant 10 (extended symlink) while every collaborator succeeds. -/
def fsC1 : Fs :=
  mkFs { inode_type := 10, mode := 0o777, uid := 0, guid := 0, mtime := 3,
         inode_number := 9 } {} {} {} {} {} {} {}

/-- C1 counterexample: discriminant 10 — extended symlink, one of the
fourteen values the claim says must dispatch — is not handled by the
switch: with every collaborator succeeding, the decode fails with the
unknown-inode-type error `-EINVAL` instead of decoding an inode. -/
theorem C1_counterexample :
    fsC1.read_base (inode_start_block fsC1 0) (inode_start_offset 0) =
      .ok { inode_type := 10, mode := 0o777, uid := 0, guid := 0, mtime := 3,
            inode_number := 9 } ∧
    (squashfs_read_inode fsC1 0).2 = .error (-EINVAL) := ⟨rfl, rfl⟩

/-- The filesystem context of the C1 witness: a basic-directory header. -/
def fsC1w : Fs :=
  mkFs { inode_type := 1, mode := 0o755, uid := 0, guid := 0, mtime := 3,
         inode_number := 42 } {} {}
    { start_block := 0x1000, nlink := 2, file_size := 64, offset := 16,
      parent_inode := 1 } {} {} {} {}

/-- C1 witness: the dispatch theorem applied at a basic-directory header
(discriminant 1), which decodes successfully. -/
theorem C1_type_dispatch_witness :
    ∃ v, (squashfs_read_inode fsC1w 0).2 = .ok v :=
  (C1_type_dispatch fsC1w 0
    { inode_type := 1, mode := 0o755, uid := 0, guid := 0, mtime := 3,
      inode_number := 42 } 1000 1000 rfl rfl rfl
    ⟨fun _ _ => ⟨_, rfl⟩, fun _ _ => ⟨_, rfl⟩, fun _ _ => ⟨_, rfl⟩,
     fun _ _ => ⟨_, rfl⟩, fun _ _ => ⟨_, rfl⟩, fun _ _ => ⟨_, rfl⟩,
     fun _ _ => ⟨_, rfl⟩⟩).1 (by decide)

/-- When the owner-identity lookup fails, the decode stops right after it:
the trace is the header read plus the one lookup, the result its error. -/
theorem read_inode_uid_error (fs : Fs) (ino : Nat) (b : squashfs_base_inode)
    (e : Int)
    (hb : fs.read_base (inode_start_block fs ino) (inode_start_offset ino) = .ok b)
    (hu : fs.get_id (u16 b.uid) = .error e) :
    squashfs_read_inode fs ino =
      ([.readMeta (inode_start_block fs ino) (inode_start_offset ino)
          sizeof_base_inode, .getId (u16 b.uid)], .error e) := by
  unfold squashfs_read_inode squashfs_new_inode
  rw [hb]
  simp only [hu]

/-- When the group-identity lookup fails, the decode stops right after it. -/
theorem read_inode_guid_error (fs : Fs) (ino : Nat) (b : squashfs_base_inode)
    (uid : Nat) (e : Int)
    (hb : fs.read_base (inode_start_block fs ino) (inode_start_offset ino) = .ok b)
    (hu : fs.get_id (u16 b.uid) = .ok uid)
    (hg : fs.get_id (u16 b.guid) = .error e) :
    squashfs_read_inode fs ino =
      ([.readMeta (inode_start_block fs ino) (inode_start_offset ino)
          sizeof_base_inode, .getId (u16 b.uid), .getId (u16 b.guid)],
       .error e) := by
  unfold squashfs_read_inode squashfs_new_inode
  rw [hb]
  simp only [hu, hg]

/-- C8: a failing identity resolution on the owner index, or on the group
index after a successful owner lookup, makes the decode return the
resolver's error; the type-specific record read and any fragment
resolution are not performed and no inode is returned. -/
theorem C8_identity_failure (fs : Fs) (ino : Nat) (b : squashfs_base_inode)
    (e : Int)
    (hb : fs.read_base (inode_start_block fs ino) (inode_start_offset ino) = .ok b)
    (he : fs.get_id (u16 b.uid) = .error e ∨
          ∃ uid, fs.get_id (u16 b.uid) = .ok uid ∧
            fs.get_id (u16 b.guid) = .error e) :
    (squashfs_read_inode fs ino).2 = .error e ∧
    streamReads (squashfs_read_inode fs ino).1 =
      [(inode_start_block fs ino, inode_start_offset ino, sizeof_base_inode)] ∧
    ∀ idx, Event.getFrag idx ∉ (squashfs_read_inode fs ino).1 := by
  rcases he with hu | ⟨uid, hu, hg⟩
  · rw [read_inode_uid_error fs ino b e hb hu]
    simp [streamReads]
  · rw [read_inode_guid_error fs ino b uid e hb hu hg]
    simp [streamReads]

/-- The filesystem context of the C8 witness: the identity resolver
rejects every index with `-ERANGE` (-34). -/
def fsC8 : Fs :=
  { mkFs { inode_type := 2, mode := 0o644, uid := 3, guid := 4, mtime := 1,
           inode_number := 5 } {} {} {} {} {} {} {} with
    get_id := fun _ => .error (-34) }

/-- C8 witness: the identity-failure theorem applied at the concrete
context whose resolver fails on the owner index. -/
theorem C8_identity_failure_witness :
    (squashfs_read_inode fsC8 0).2 = .error (-34) ∧
    streamReads (squashfs_read_inode fsC8 0).1 =
      [(inode_start_block fsC8 0, inode_start_offset 0, sizeof_base_inode)] ∧
    ∀ idx, Event.getFrag idx ∉ (squashfs_read_inode fsC8 0).1 :=
  C8_identity_failure fsC8 0
    { inode_type := 2, mode := 0o644, uid := 3, guid := 4, mtime := 1,
      inode_number := 5 } (-34) rfl (Or.inl rfl)

/-- C6: a successfully decoded basic regular-file record always carries
link count 1, whatever the record's contents: the basic format stores no
link count and the decoder fixes `i_nlink = 1`. -/
theorem C6_basic_file_nlink (fs : Fs) (ino : Nat) (b : squashfs_base_inode)
    (v : SqInode)
    (hb : fs.read_base (inode_start_block fs ino) (inode_start_offset ino) = .ok b)
    (ht : u16 b.inode_type = SQUASHFS_FILE_TYPE)
    (hv : (squashfs_read_inode fs ino).2 = .ok v) :
    v.i_nlink = 1 := by
  rcases hu : fs.get_id (u16 b.uid) with e | uid
  · rw [read_inode_uid_error fs ino b e hb hu] at hv
    simp at hv
  rcases hg : fs.get_id (u16 b.guid) with e | gid
  · rw [read_inode_guid_error fs ino b uid e hb hu hg] at hv
    simp at hv
  rw [read_inode_result fs ino b uid gid hb hu hg, ht] at hv
  rcases hrd : fs.read_reg (inode_start_block fs ino) (inode_start_offset ino)
    with e | ⟨r, c1, c2⟩
  · simp [squashfs_decode_type, SQUASHFS_FILE_TYPE, hrd] at hv
  · by_cases hf : u32 r.fragment = SQUASHFS_INVALID_FRAG <;>
      simp [squashfs_decode_type, SQUASHFS_FILE_TYPE, hrd, hf,
        Nat.not_lt_zero] at hv <;>
      subst hv <;> rfl

/-- The filesystem context of the C6 witness: a basic regular file whose
record even carries unrelated data, decoded with no fragment. -/
def fsC6 : Fs :=
  mkFs { inode_type := 2, mode := 0o644, uid := 0, guid := 0, mtime := 11,
         inode_number := 5 }
    { start_block := 7, fragment := 0xffffffff, offset := 9,
      file_size := 1024 } {} {} {} {} {} {}

/-- The inode the C6 witness decode produces. -/
def vC6 : SqInode :=
  match (squashfs_read_inode fsC6 0).2 with
  | .ok v => v
  | .error _ => {}

/-- C6 witness: the theorem applied at the concrete basic-file decode. -/
theorem C6_basic_file_nlink_witness : vC6.i_nlink = 1 :=
  C6_basic_file_nlink fsC6 0
    { inode_type := 2, mode := 0o644, uid := 0, guid := 0, mtime := 11,
      inode_number := 5 } vC6 rfl rfl rfl

/-- C10: a successfully decoded block-device, char-device, fifo or socket
inode has logical size 0: `squashfs_new_inode` initialises `i_size = 0`
and neither the device branch nor the ipc branch assigns it. -/
theorem C10_special_inode_size (fs : Fs) (ino : Nat)
    (b : squashfs_base_inode) (v : SqInode)
    (hb : fs.read_base (inode_start_block fs ino) (inode_start_offset ino) = .ok b)
    (ht : u16 b.inode_type = SQUASHFS_BLKDEV_TYPE ∨
          u16 b.inode_type = SQUASHFS_CHRDEV_TYPE ∨
          u16 b.inode_type = SQUASHFS_FIFO_TYPE ∨
          u16 b.inode_type = SQUASHFS_SOCKET_TYPE)
    (hv : (squashfs_read_inode fs ino).2 = .ok v) :
    v.i_size = 0 := by
  rcases hu : fs.get_id (u16 b.uid) with e | uid
  · rw [read_inode_uid_error fs ino b e hb hu] at hv
    simp at hv
  rcases hg : fs.get_id (u16 b.guid) with e | gid
  · rw [read_inode_guid_error fs ino b uid e hb hu hg] at hv
    simp at hv
  rw [read_inode_result fs ino b uid gid hb hu hg] at hv
  rcases ht with h | h | h | h <;> rw [h] at hv
  · rcases hrd : fs.read_dev (inode_start_block fs ino)
      (inode_start_offset ino) with e | ⟨r, c1, c2⟩ <;>
      simp [squashfs_decode_type, SQUASHFS_FILE_TYPE, SQUASHFS_LREG_TYPE,
        SQUASHFS_DIR_TYPE, SQUASHFS_LDIR_TYPE, SQUASHFS_SYMLINK_TYPE,
        SQUASHFS_BLKDEV_TYPE, SQUASHFS_CHRDEV_TYPE, hrd] at hv
    subst hv
    rfl
  · rcases hrd : fs.read_dev (inode_start_block fs ino)
      (inode_start_offset ino) with e | ⟨r, c1, c2⟩ <;>
      simp [squashfs_decode_type, SQUASHFS_FILE_TYPE, SQUASHFS_LREG_TYPE,
        SQUASHFS_DIR_TYPE, SQUASHFS_LDIR_TYPE, SQUASHFS_SYMLINK_TYPE,
        SQUASHFS_BLKDEV_TYPE, SQUASHFS_CHRDEV_TYPE, hrd] at hv
    subst hv
    rfl
  · rcases hrd : fs.read_ipc (inode_start_block fs ino)
      (inode_start_offset ino) with e | ⟨r, c1, c2⟩ <;>
      simp [squashfs_decode_type, SQUASHFS_FILE_TYPE, SQUASHFS_LREG_TYPE,
        SQUASHFS_DIR_TYPE, SQUASHFS_LDIR_TYPE, SQUASHFS_SYMLINK_TYPE,
        SQUASHFS_BLKDEV_TYPE, SQUASHFS_CHRDEV_TYPE, SQUASHFS_FIFO_TYPE,
        SQUASHFS_SOCKET_TYPE, hrd] at hv
    subst hv
    rfl
  · rcases hrd : fs.read_ipc (inode_start_block fs ino)
      (inode_start_offset ino) with e | ⟨r, c1, c2⟩ <;>
      simp [squashfs_decode_type, SQUASHFS_FILE_TYPE, SQUASHFS_LREG_TYPE,
        SQUASHFS_DIR_TYPE, SQUASHFS_LDIR_TYPE, SQUASHFS_SYMLINK_TYPE,
        SQUASHFS_BLKDEV_TYPE, SQUASHFS_CHRDEV_TYPE, SQUASHFS_FIFO_TYPE,
        SQUASHFS_SOCKET_TYPE, hrd] at hv
    subst hv
    rfl

/-- The filesystem context of the C10 witness: a basic char-device inode. -/
def fsC10 : Fs :=
  mkFs { inode_type := 5, mode := 0o660, uid := 0, guid := 0, mtime := 2,
         inode_number := 6 } {} {} {} {} {}
    { nlink := 1, rdev := 0x0103 } {}

/-- The inode the C10 witness decode produces. -/
def vC10 : SqInode :=
  match (squashfs_read_inode fsC10 0).2 with
  | .ok v => v
  | .error _ => {}

/-- C10 witness: the theorem applied at the concrete char-device decode. -/
theorem C10_special_inode_size_witness : vC10.i_size = 0 :=
  C10_special_inode_size fsC10 0
    { inode_type := 5, mode := 0o660, uid := 0, guid := 0, mtime := 2,
      inode_number := 6 } vC10 rfl (Or.inr (Or.inl rfl)) rfl

/-- The file-type bits each handled branch of the dispatch ORs into the
stored mode, as a function of the discriminant (0 on unhandled values,
which never decode successfully). -/
def squashfs_type_bits (t : Nat) : Nat :=
  if t = SQUASHFS_FILE_TYPE ∨ t = SQUASHFS_LREG_TYPE then S_IFREG
  else if t = SQUASHFS_DIR_TYPE ∨ t = SQUASHFS_LDIR_TYPE then S_IFDIR
  else if t = SQUASHFS_SYMLINK_TYPE then S_IFLNK
  else if t = SQUASHFS_BLKDEV_TYPE then S_IFBLK
  else if t = SQUASHFS_CHRDEV_TYPE then S_IFCHR
  else if t = SQUASHFS_FIFO_TYPE then S_IFIFO
  else if t = SQUASHFS_SOCKET_TYPE then S_IFSOCK
  else 0

theorem u16_lt (n : Nat) : u16 n < 2 ^ 16 := Nat.mod_lt _ (by norm_num)

theorem u32_lt (n : Nat) : u32 n < 2 ^ 32 := Nat.mod_lt _ (by norm_num)

theorem u64_lt (n : Nat) : u64 n < 2 ^ 64 := Nat.mod_lt _ (by norm_num)

/-- Truncating an OR of two 16-bit values to 16 bits changes nothing. -/
theorem u16_or_self (m c : Nat) (hm : m < 2 ^ 16) (hc : c < 2 ^ 16) :
    u16 (m ||| c) = m ||| c :=
  Nat.mod_eq_of_lt (Nat.or_lt_two_pow hm hc)

/-- ORing in bits that lie above the permission mask leaves the twelve
permission bits unchanged. -/
theorem or_keeps_perm_bits (m c : Nat) (hc : c &&& 0o7777 = 0) :
    (m ||| c) &&& 0o7777 = m &&& 0o7777 := by
  rw [Nat.and_distrib_right, hc, Nat.or_zero]

/-- C7: every successfully decoded inode's mode is the stored permission
mode OR-combined with the file-type bits derived from the discriminant,
and the low permission bits are unchanged by the merge. -/
theorem C7_mode_assembly (fs : Fs) (ino : Nat) (b : squashfs_base_inode)
    (v : SqInode)
    (hb : fs.read_base (inode_start_block fs ino) (inode_start_offset ino) = .ok b)
    (hv : (squashfs_read_inode fs ino).2 = .ok v) :
    v.i_mode = u16 b.mode ||| squashfs_type_bits (u16 b.inode_type) ∧
    v.i_mode &&& 0o7777 = u16 b.mode &&& 0o7777 := by
  rcases hu : fs.get_id (u16 b.uid) with e | uid
  · rw [read_inode_uid_error fs ino b e hb hu] at hv
    simp at hv
  rcases hg : fs.get_id (u16 b.guid) with e | gid
  · rw [read_inode_guid_error fs ino b uid e hb hu hg] at hv
    simp at hv
  rw [read_inode_result fs ino b uid gid hb hu hg] at hv
  by_cases hmem : u16 b.inode_type ∈ handled_types
  · simp only [handled_types, List.mem_cons, List.not_mem_nil, or_false]
      at hmem
    rcases hmem with h | h | h | h | h | h | h | h | h <;> rw [h] at hv ⊢
    · rcases hrd : fs.read_reg (inode_start_block fs ino)
        (inode_start_offset ino) with e | ⟨r, c1, c2⟩
      · simp [squashfs_decode_type, SQUASHFS_FILE_TYPE, hrd] at hv
      · by_cases hf : u32 r.fragment = SQUASHFS_INVALID_FRAG <;>
          simp [squashfs_decode_type, SQUASHFS_FILE_TYPE, hrd, hf,
            Nat.not_lt_zero] at hv <;>
        subst hv <;>
        exact ⟨by simp [squashfs_type_bits, SQUASHFS_FILE_TYPE,
            SQUASHFS_LREG_TYPE],
          or_keeps_perm_bits _ _ (by decide)⟩
    · rcases hrd : fs.read_lreg (inode_start_block fs ino)
        (inode_start_offset ino) with e | ⟨r, c1, c2⟩
      · simp [squashfs_decode_type, SQUASHFS_FILE_TYPE, SQUASHFS_LREG_TYPE,
          hrd] at hv
      · by_cases hf : u32 r.fragment = SQUASHFS_INVALID_FRAG <;>
          simp [squashfs_decode_type, SQUASHFS_FILE_TYPE, SQUASHFS_LREG_TYPE,
            hrd, hf, Nat.not_lt_zero] at hv <;>
        subst hv <;>
        exact ⟨by simp [squashfs_type_bits, SQUASHFS_FILE_TYPE,
            SQUASHFS_LREG_TYPE],
          or_keeps_perm_bits _ _ (by decide)⟩
    · rcases hrd : fs.read_dir (inode_start_block fs ino)
        (inode_start_offset ino) with e | ⟨r, c1, c2⟩ <;>
        simp [squashfs_decode_type, SQUASHFS_FILE_TYPE, SQUASHFS_LREG_TYPE,
          SQUASHFS_DIR_TYPE, hrd] at hv
      subst hv
      exact ⟨by simp [squashfs_type_bits, SQUASHFS_FILE_TYPE,
          SQUASHFS_LREG_TYPE, SQUASHFS_DIR_TYPE, SQUASHFS_LDIR_TYPE],
        or_keeps_perm_bits _ _ (by decide)⟩
    · rcases hrd : fs.read_ldir (inode_start_block fs ino)
        (inode_start_offset ino) with e | ⟨r, c1, c2⟩ <;>
        simp [squashfs_decode_type, SQUASHFS_FILE_TYPE, SQUASHFS_LREG_TYPE,
          SQUASHFS_DIR_TYPE, SQUASHFS_LDIR_TYPE, hrd] at hv
      subst hv
      exact ⟨by simp [squashfs_type_bits, SQUASHFS_FILE_TYPE,
          SQUASHFS_LREG_TYPE, SQUASHFS_DIR_TYPE, SQUASHFS_LDIR_TYPE],
        or_keeps_perm_bits _ _ (by decide)⟩
    · rcases hrd : fs.read_symlink (inode_start_block fs ino)
        (inode_start_offset ino) with e | ⟨r, c1, c2⟩ <;>
        simp [squashfs_decode_type, SQUASHFS_FILE_TYPE, SQUASHFS_LREG_TYPE,
          SQUASHFS_DIR_TYPE, SQUASHFS_LDIR_TYPE, SQUASHFS_SYMLINK_TYPE,
          hrd] at hv
      subst hv
      exact ⟨by simp [squashfs_type_bits, SQUASHFS_FILE_TYPE,
          SQUASHFS_LREG_TYPE, SQUASHFS_DIR_TYPE, SQUASHFS_LDIR_TYPE,
          SQUASHFS_SYMLINK_TYPE],
        or_keeps_perm_bits _ _ (by decide)⟩
    · rcases hrd : fs.read_dev (inode_start_block fs ino)
        (inode_start_offset ino) with e | ⟨r, c1, c2⟩ <;>
        simp [squashfs_decode_type, SQUASHFS_FILE_TYPE, SQUASHFS_LREG_TYPE,
          SQUASHFS_DIR_TYPE, SQUASHFS_LDIR_TYPE, SQUASHFS_SYMLINK_TYPE,
          SQUASHFS_BLKDEV_TYPE, SQUASHFS_CHRDEV_TYPE, hrd] at hv
      subst hv
      have hco : u16 (u16 b.mode ||| S_IFBLK) = u16 b.mode ||| S_IFBLK :=
        u16_or_self _ _ (u16_lt _) (by norm_num [S_IFBLK])
      exact ⟨by simp [hco, squashfs_type_bits, SQUASHFS_FILE_TYPE,
          SQUASHFS_LREG_TYPE, SQUASHFS_DIR_TYPE, SQUASHFS_LDIR_TYPE,
          SQUASHFS_SYMLINK_TYPE, SQUASHFS_BLKDEV_TYPE, SQUASHFS_CHRDEV_TYPE],
        by
          show u16 (u16 b.mode ||| S_IFBLK) &&& 0o7777 = u16 b.mode &&& 0o7777
          rw [hco]
          exact or_keeps_perm_bits _ _ (by decide)⟩
    · rcases hrd : fs.read_dev (inode_start_block fs ino)
        (inode_start_offset ino) with e | ⟨r, c1, c2⟩ <;>
        simp [squashfs_decode_type, SQUASHFS_FILE_TYPE, SQUASHFS_LREG_TYPE,
          SQUASHFS_DIR_TYPE, SQUASHFS_LDIR_TYPE, SQUASHFS_SYMLINK_TYPE,
          SQUASHFS_BLKDEV_TYPE, SQUASHFS_CHRDEV_TYPE, hrd] at hv
      subst hv
      have hco : u16 (u16 b.mode ||| S_IFCHR) = u16 b.mode ||| S_IFCHR :=
        u16_or_self _ _ (u16_lt _) (by norm_num [S_IFCHR])
      exact ⟨by simp [hco, squashfs_type_bits, SQUASHFS_FILE_TYPE,
          SQUASHFS_LREG_TYPE, SQUASHFS_DIR_TYPE, SQUASHFS_LDIR_TYPE,
          SQUASHFS_SYMLINK_TYPE, SQUASHFS_BLKDEV_TYPE, SQUASHFS_CHRDEV_TYPE],
        by
          show u16 (u16 b.mode ||| S_IFCHR) &&& 0o7777 = u16 b.mode &&& 0o7777
          rw [hco]
          exact or_keeps_perm_bits _ _ (by decide)⟩
    · rcases hrd : fs.read_ipc (inode_start_block fs ino)
        (inode_start_offset ino) with e | ⟨r, c1, c2⟩ <;>
        simp [squashfs_decode_type, SQUASHFS_FILE_TYPE, SQUASHFS_LREG_TYPE,
          SQUASHFS_DIR_TYPE, SQUASHFS_LDIR_TYPE, SQUASHFS_SYMLINK_TYPE,
          SQUASHFS_BLKDEV_TYPE, SQUASHFS_CHRDEV_TYPE, SQUASHFS_FIFO_TYPE,
          SQUASHFS_SOCKET_TYPE, hrd] at hv
      subst hv
      have hco : u16 (u16 b.mode ||| S_IFIFO) = u16 b.mode ||| S_IFIFO :=
        u16_or_self _ _ (u16_lt _) (by norm_num [S_IFIFO])
      exact ⟨by simp [hco, squashfs_type_bits, SQUASHFS_FILE_TYPE,
          SQUASHFS_LREG_TYPE, SQUASHFS_DIR_TYPE, SQUASHFS_LDIR_TYPE,
          SQUASHFS_SYMLINK_TYPE, SQUASHFS_BLKDEV_TYPE, SQUASHFS_CHRDEV_TYPE,
          SQUASHFS_FIFO_TYPE, SQUASHFS_SOCKET_TYPE],
        by
          show u16 (u16 b.mode ||| S_IFIFO) &&& 0o7777 = u16 b.mode &&& 0o7777
          rw [hco]
          exact or_keeps_perm_bits _ _ (by decide)⟩
    · rcases hrd : fs.read_ipc (inode_start_block fs ino)
        (inode_start_offset ino) with e | ⟨r, c1, c2⟩ <;>
        simp [squashfs_decode_type, SQUASHFS_FILE_TYPE, SQUASHFS_LREG_TYPE,
          SQUASHFS_DIR_TYPE, SQUASHFS_LDIR_TYPE, SQUASHFS_SYMLINK_TYPE,
          SQUASHFS_BLKDEV_TYPE, SQUASHFS_CHRDEV_TYPE, SQUASHFS_FIFO_TYPE,
          SQUASHFS_SOCKET_TYPE, hrd] at hv
      subst hv
      have hco : u16 (u16 b.mode ||| S_IFSOCK) = u16 b.mode ||| S_IFSOCK :=
        u16_or_self _ _ (u16_lt _) (by norm_num [S_IFSOCK])
      exact ⟨by simp [hco, squashfs_type_bits, SQUASHFS_FILE_TYPE,
          SQUASHFS_LREG_TYPE, SQUASHFS_DIR_TYPE, SQUASHFS_LDIR_TYPE,
          SQUASHFS_SYMLINK_TYPE, SQUASHFS_BLKDEV_TYPE, SQUASHFS_CHRDEV_TYPE,
          SQUASHFS_FIFO_TYPE, SQUASHFS_SOCKET_TYPE],
        by
          show u16 (u16 b.mode ||| S_IFSOCK) &&& 0o7777 = u16 b.mode &&& 0o7777
          rw [hco]
          exact or_keeps_perm_bits _ _ (by decide)⟩
  · rw [decode_type_unhandled _ _ _ _ _ hmem] at hv
    simp at hv

/-- The filesystem context of the C7 witness: a symlink record with
stored mode 0o644. -/
def fsC7 : Fs :=
  mkFs { inode_type := 3, mode := 0o644, uid := 0, guid := 0, mtime := 4,
         inode_number := 12 } {} {} {} {}
    { nlink := 1, symlink_size := 11 } {} {}

/-- The inode the C7 witness decode produces. -/
def vC7 : SqInode :=
  match (squashfs_read_inode fsC7 0).2 with
  | .ok v => v
  | .error _ => {}

/-- C7 witness: the symlink with stored mode 0o644 decodes to mode
0o120644 — the symlink type bits merged in, permission bits unchanged. -/
theorem C7_mode_assembly_witness :
    vC7.i_mode = 0o120644 ∧ vC7.i_mode &&& 0o7777 = 0o644 :=
  C7_mode_assembly fsC7 0
    { inode_type := 3, mode := 0o644, uid := 0, guid := 0, mtime := 4,
      inode_number := 12 } vC7 rfl rfl

/-- C4: a regular-file record (basic or extended) whose fragment index is
the all-ones 32-bit sentinel decodes to an inode whose fragment reference
is the absent triple — fragment block location, fragment size and
fragment offset all null/zero — and the fragment resolver is never
invoked during that decode. -/
theorem C4_fragment_sentinel (fs : Fs) (ino : Nat) (b : squashfs_base_inode)
    (v : SqInode)
    (hb : fs.read_base (inode_start_block fs ino) (inode_start_offset ino) = .ok b)
    (hv : (squashfs_read_inode fs ino).2 = .ok v)
    (hfrag :
      (u16 b.inode_type = SQUASHFS_FILE_TYPE ∧
        ∃ r c1 c2, fs.read_reg (inode_start_block fs ino)
            (inode_start_offset ino) = .ok (r, c1, c2) ∧
          u32 r.fragment = SQUASHFS_INVALID_FRAG) ∨
      (u16 b.inode_type = SQUASHFS_LREG_TYPE ∧
        ∃ r c1 c2, fs.read_lreg (inode_start_block fs ino)
            (inode_start_offset ino) = .ok (r, c1, c2) ∧
          u32 r.fragment = SQUASHFS_INVALID_FRAG)) :
    v.fragment_block = 0 ∧ v.fragment_size = 0 ∧ v.fragment_offset = 0 ∧
    ∀ idx, Event.getFrag idx ∉ (squashfs_read_inode fs ino).1 := by
  rcases hu : fs.get_id (u16 b.uid) with e | uid
  · rw [read_inode_uid_error fs ino b e hb hu] at hv
    simp at hv
  rcases hg : fs.get_id (u16 b.guid) with e | gid
  · rw [read_inode_guid_error fs ino b uid e hb hu hg] at hv
    simp at hv
  rcases hfrag with ⟨ht, r, c1, c2, hrd, hf⟩ | ⟨ht, r, c1, c2, hrd, hf⟩
  · rw [read_inode_result fs ino b uid gid hb hu hg, ht] at hv
    simp [squashfs_decode_type, SQUASHFS_FILE_TYPE, hrd, hf] at hv
    subst hv
    refine ⟨rfl, rfl, rfl, ?_⟩
    intro idx
    rw [read_inode_trace fs ino b uid gid hb hu hg, ht]
    simp [squashfs_decode_type, SQUASHFS_FILE_TYPE, hrd, hf]
  · rw [read_inode_result fs ino b uid gid hb hu hg, ht] at hv
    simp [squashfs_decode_type, SQUASHFS_FILE_TYPE, SQUASHFS_LREG_TYPE,
      hrd, hf] at hv
    subst hv
    refine ⟨rfl, rfl, rfl, ?_⟩
    intro idx
    rw [read_inode_trace fs ino b uid gid hb hu hg, ht]
    simp [squashfs_decode_type, SQUASHFS_FILE_TYPE, SQUASHFS_LREG_TYPE,
      hrd, hf]

/-- The filesystem context of the C4 witness: a basic regular file whose
fragment index is the all-ones sentinel. -/
def fsC4 : Fs :=
  mkFs { inode_type := 2, mode := 0o600, uid := 0, guid := 0, mtime := 20,
         inode_number := 13 }
    { start_block := 3, fragment := 0xffffffff, offset := 77,
      file_size := 4096 } {} {} {} {} {} {}

/-- The inode the C4 witness decode produces. -/
def vC4 : SqInode :=
  match (squashfs_read_inode fsC4 0).2 with
  | .ok v => v
  | .error _ => {}

/-- C4 witness: the theorem applied at the concrete sentinel-fragment
basic-file decode. -/
theorem C4_fragment_sentinel_witness :
    vC4.fragment_block = 0 ∧ vC4.fragment_size = 0 ∧
    vC4.fragment_offset = 0 ∧
    ∀ idx, Event.getFrag idx ∉ (squashfs_read_inode fsC4 0).1 :=
  C4_fragment_sentinel fsC4 0
    { inode_type := 2, mode := 0o600, uid := 0, guid := 0, mtime := 20,
      inode_number := 13 } vC4 rfl rfl
    (Or.inl ⟨rfl,
      { start_block := 3, fragment := 0xffffffff, offset := 77,
        file_size := 4096 }, 5, 6, rfl, rfl⟩)

/-- The basic-file block count expression of the source — signed
arithmetic `((i_size - 1) >> 9) + 1` stored into `blkcnt_t` — equals
ceil(size / 512) for a positive 32-bit size and 0 for size 0. -/
theorem basic_blocks_eq (n : Nat) (hn : n < 2 ^ 32) :
    blkcnt_of_int (sar ((n : Int) - 1) 9 + 1) =
      if n = 0 then 0 else (n + 511) / 512 := by
  rcases Nat.eq_zero_or_pos n with h0 | hpos
  · subst h0
    decide
  · rw [if_neg (Nat.pos_iff_ne_zero.mp hpos)]
    have h1 : ((n : Int) - 1) = ((n - 1 : Nat) : Int) := by omega
    have h2 : sar ((n : Int) - 1) 9 + 1 = (((n - 1) / 512 + 1 : Nat) : Int) := by
      rw [sar, h1, show ((2 : Int) ^ 9) = 512 by norm_num,
        Int.fdiv_eq_ediv _ (by norm_num)]
      push_cast
      ring
    rw [h2]
    have h3 : (n - 1) / 512 + 1 < 2 ^ 64 := by
      have := Nat.div_le_self (n - 1) 512
      omega
    rw [blkcnt_of_int, Int.emod_eq_of_lt (by positivity)
      (by exact_mod_cast h3), Int.toNat_ofNat]
    rw [← Nat.add_div_right _ (by norm_num : 0 < 512)]
    congr 1
    omega

/-- The extended-file block count expression of the source — unsigned
64-bit `((i_size - sparse - 1) >> 9) + 1` — equals
ceil((size − sparse) / 512) whenever sparse < size. -/
theorem lreg_blocks_eq (f s : Nat) (hf : f < 2 ^ 64) (hs : s < 2 ^ 64)
    (hlt : s < f) :
    ((f + (2 ^ 64 - s) + (2 ^ 64 - 1)) % 2 ^ 64) >>> 9 + 1 =
      (f - s + 511) / 512 := by
  have h1 : f + (2 ^ 64 - s) + (2 ^ 64 - 1) = (f - s - 1) + 2 * 2 ^ 64 := by
    omega
  rw [h1, Nat.add_mul_mod_self_right, Nat.mod_eq_of_lt (by omega),
    Nat.shiftRight_eq_div_pow, show ((2 : Nat) ^ 9) = 512 by norm_num,
    ← Nat.add_div_right _ (by norm_num : 0 < 512)]
  congr 1
  omega

/-- C3 (amended): a successfully decoded regular-file inode's block count
equals ceil((logical_size − sparse_byte_count) / 512) — written
(size − sparse + 511) / 512 — whenever logical_size exceeds
sparse_byte_count, where sparse_byte_count is 0 for basic regular files;
a basic regular file of logical size 0 has block count 0.  (When an
extended record has logical_size ≤ sparse_byte_count, including
logical_size 0, the source's unsigned 64-bit expression wraps instead of
yielding 0; see the counterexample.) -/
theorem C3_block_count (fs : Fs) (ino : Nat) (b : squashfs_base_inode)
    (v : SqInode)
    (hb : fs.read_base (inode_start_block fs ino) (inode_start_offset ino) = .ok b)
    (hv : (squashfs_read_inode fs ino).2 = .ok v) :
    (u16 b.inode_type = SQUASHFS_FILE_TYPE →
      ∀ r c1 c2, fs.read_reg (inode_start_block fs ino)
          (inode_start_offset ino) = .ok (r, c1, c2) →
        v.i_blocks = if u32 r.file_size = 0 then 0
          else (u32 r.file_size + 511) / 512) ∧
    (u16 b.inode_type = SQUASHFS_LREG_TYPE →
      ∀ r c1 c2, fs.read_lreg (inode_start_block fs ino)
          (inode_start_offset ino) = .ok (r, c1, c2) →
        u64 r.sparse < u64 r.file_size →
        v.i_blocks = (u64 r.file_size - u64 r.sparse + 511) / 512) := by
  rcases hu : fs.get_id (u16 b.uid) with e | uid
  · rw [read_inode_uid_error fs ino b e hb hu] at hv
    simp at hv
  rcases hg : fs.get_id (u16 b.guid) with e | gid
  · rw [read_inode_guid_error fs ino b uid e hb hu hg] at hv
    simp at hv
  rw [read_inode_result fs ino b uid gid hb hu hg] at hv
  constructor
  · intro ht r c1 c2 hrd
    rw [ht] at hv
    by_cases hfr : u32 r.fragment = SQUASHFS_INVALID_FRAG <;>
      simp [squashfs_decode_type, SQUASHFS_FILE_TYPE, hrd, hfr,
        Nat.not_lt_zero] at hv <;>
    subst hv <;>
    exact basic_blocks_eq _ (u32_lt _)
  · intro ht r c1 c2 hrd hsp
    rw [ht] at hv
    by_cases hfr : u32 r.fragment = SQUASHFS_INVALID_FRAG <;>
      simp [squashfs_decode_type, SQUASHFS_FILE_TYPE, SQUASHFS_LREG_TYPE,
        hrd, hfr, Nat.not_lt_zero] at hv <;>
    subst hv <;>
    exact lreg_blocks_eq _ _ (u64_lt _) (u64_lt _) hsp

/-- The filesystem context of the C3 counterexample: an extended regular
file with logical size 0 and sparse count 0. -/
def fsC3 : Fs :=
  mkFs { inode_type := 9, mode := 0o644, uid := 0, guid := 0, mtime := 0,
         inode_number := 8 } {}
    { start_block := 0, file_size := 0, sparse := 0, nlink := 2,
      fragment := 0xffffffff, offset := 0 } {} {} {} {} {}

/-- The inode the C3 counterexample decode produces. -/
def vC3 : SqInode :=
  match (squashfs_read_inode fsC3 0).2 with
  | .ok v => v
  | .error _ => {}

/-- C3 counterexample: an extended regular file with logical size 0 (and
sparse count 0) decodes successfully, but its block count is 2^55, not 0
as the claim requires — the unsigned 64-bit `((i_size - sparse - 1) >> 9)
+ 1` wraps. -/
theorem C3_counterexample :
    (squashfs_read_inode fsC3 0).2 = .ok vC3 ∧ vC3.i_size = 0 ∧
    vC3.i_blocks = 2 ^ 55 := ⟨rfl, rfl, by decide⟩

/-- The filesystem context of the C3 witness: an extended regular file
with logical size 10240 and sparse count 2048. -/
def fsC3w : Fs :=
  mkFs { inode_type := 9, mode := 0o644, uid := 0, guid := 0, mtime := 0,
         inode_number := 8 } {}
    { start_block := 0, file_size := 10240, sparse := 2048, nlink := 1,
      fragment := 0xffffffff, offset := 0 } {} {} {} {} {}

/-- The inode the C3 witness decode produces. -/
def vC3w : SqInode :=
  match (squashfs_read_inode fsC3w 0).2 with
  | .ok v => v
  | .error _ => {}

/-- C3 witness: the theorem applied at logical size 10240 with sparse
count 2048 yields block count ceil((10240 − 2048) / 512) = 16. -/
theorem C3_block_count_witness : vC3w.i_blocks = 16 :=
  (C3_block_count fsC3w 0
    { inode_type := 9, mode := 0o644, uid := 0, guid := 0, mtime := 0,
      inode_number := 8 } vC3w rfl rfl).2 rfl
    { start_block := 0, file_size := 10240, sparse := 2048, nlink := 1,
      fragment := 0xffffffff, offset := 0 } 5 6 rfl (by decide)
